import Mathlib

/-!
Shallow embedding of the wallabag_mcp repository (src/wallabag_client.py and
src/server.py): a JSON value model, a Python-exception model, the
`WallabagClient` operations as explicit state-passing functions over a
`World` (session token, trace of issued HTTP requests, transport-handle
close counters), and the MCP server tool adapters.  Theorems about the
frozen claims follow the definitions.
-/

/-- JSON values, as produced by `response.json()`. -/
inductive JsonVal : Type where
  | null : JsonVal
  | bool : Bool → JsonVal
  | num : Int → JsonVal
  | str : String → JsonVal
  | arr : List JsonVal → JsonVal
  | obj : List (String × JsonVal) → JsonVal

/-- Python truthiness of a JSON value (`bool(v)`). -/
def pyFalsy : JsonVal → Bool
  | .null => true
  | .bool b => !b
  | .num n => n == 0
  | .str s => s == ""
  | .arr xs => xs.isEmpty
  | .obj fs => fs.isEmpty

/-- Python truthiness of an optional value whose absence is Python `None`. -/
def pyFalsyOpt : Option JsonVal → Bool
  | none => true
  | some v => pyFalsy v

/-- Python `str()` of a JSON value, as used by f-string interpolation. -/
def pyStr : JsonVal → String
  | .null => "None"
  | .bool true => "True"
  | .bool false => "False"
  | .num n => toString n
  | .str s => s
  | .arr _ => "[...]"
  | .obj _ => "[...]"

/-- Python type name of a JSON value, for AttributeError messages. -/
def pyTypeName : JsonVal → String
  | .null => "NoneType"
  | .bool _ => "bool"
  | .num _ => "int"
  | .str _ => "str"
  | .arr _ => "list"
  | .obj _ => "dict"

/-- The message of the AttributeError raised by `v.get(...)` on a non-dict
    value (quotes of the CPython message elided). -/
def attrGetMsg (v : JsonVal) : String :=
  pyTypeName v ++ " object has no attribute get"

/-- Exceptions that the embedded code can raise.  `wallabagConfigError`,
    `wallabagAuthError` and `wallabagApiError` are the custom exception
    classes of wallabag_client.py; the rest are Python built-ins. -/
inductive PyExc : Type where
  | wallabagConfigError (msg : String)
  | wallabagAuthError (msg : String)
  | wallabagApiError (msg : String)
  | jsonDecodeError (msg : String)
  | validationError (msg : String)
  | typeError (msg : String)
  | attributeError (msg : String)
deriving DecidableEq

/-- Python `str(e)` on an exception: its message. -/
def excMsg : PyExc → String
  | .wallabagConfigError m => m
  | .wallabagAuthError m => m
  | .wallabagApiError m => m
  | .jsonDecodeError m => m
  | .validationError m => m
  | .typeError m => m
  | .attributeError m => m

/-- `d.get(k, default)` in Python: returns the value, the default when the
    key is absent, and raises AttributeError when `d` is not a dict. -/
def pyGetD (v : JsonVal) (k : String) (default : JsonVal) :
    Except PyExc JsonVal :=
  match v with
  | .obj fs => .ok ((fs.lookup k).getD default)
  | _ => .error (.attributeError (attrGetMsg v))

/-- `d.get(k)` in Python (default `None`, modelled as `Option.none`):
    raises AttributeError when `d` is not a dict. -/
def pyGetOpt (v : JsonVal) (k : String) : Except PyExc (Option JsonVal) :=
  match v with
  | .obj fs => .ok (fs.lookup k)
  | _ => .error (.attributeError (attrGetMsg v))

/-- `a or b` on optional strings: the left operand when truthy (present and
    non-empty), otherwise the right operand. -/
def pyOr (a b : Option String) : Option String :=
  match a with
  | some s => if s = "" then b else some s
  | none => b

/-- An outbound HTTP request, as assembled by the client. -/
structure Request : Type where
  method : String
  url : String
  params : List (String × String)
  headers : List (String × String)
deriving DecidableEq

/-- The network-visible outcome of one HTTP exchange: a 2xx response
    (whose body may or may not parse as JSON - `response.json()` raises
    JSONDecodeError, carried in the `Except`), a non-2xx status (which
    `raise_for_status` turns into `httpx.HTTPStatusError`), or a
    transport-level failure (`httpx.RequestError`). -/
inductive HttpOutcome : Type where
  | ok (jsonResult : Except String JsonVal)
  | statusError (code : Nat) (text : String)
  | transportError (msg : String)

/-- A 2xx `httpx.Response`, reduced to the result of `response.json()`. -/
structure Response : Type where
  jsonResult : Except String JsonVal

/-- Mutable session and transport state threaded through the client.
    `access_token` is the `self.access_token` attribute (Python `None`
    modelled as `Option.none`; the value assigned by `token_data.get` can
    be any JSON value).  `issued` records every request handed to the
    transport.  `closedLocal` counts `aclose()` calls on locally-created
    transport handles, `closedCaller` on the caller-supplied handle. -/
structure World : Type where
  access_token : Option JsonVal
  issued : List Request
  closedLocal : Nat
  closedCaller : Nat

/-- Per-client configuration: `self.base_url`, whether `self._client` was
    supplied by the caller at construction, and the response of the
    environment to each request (the network). -/
structure ClientCfg : Type where
  base_url : String
  hasCallerClient : Bool
  net : Request → HttpOutcome

/-- `WallabagClient._request` (wallabag_client.py lines 85-106): issues the
    request on `self._client` or a freshly created transport, maps
    `HTTPStatusError` and `RequestError` to `WallabagApiError`, and in the
    `finally` block closes the transport exactly when it was created
    locally (`if not self._client: await client.aclose()`). -/
def clientRequest (cfg : ClientCfg) (r : Request) (w : World) :
    Except PyExc Response × World :=
  let w1 : World := { w with issued := w.issued ++ [r] }
  let res : Except PyExc Response :=
    match cfg.net r with
    | .ok jr => .ok ⟨jr⟩
    | .statusError c t =>
        .error (.wallabagApiError
          ("API request failed: " ++ toString c ++ " - " ++ t))
    | .transportError m =>
        .error (.wallabagApiError ("Request failed: " ++ m))
  let w2 : World :=
    if cfg.hasCallerClient then w1
    else { w1 with closedLocal := w1.closedLocal + 1 }
  (res, w2)

/-- Credential environment visible through `os.getenv`. -/
structure Env : Type where
  base_url : Option String := none
  client_id : Option String := none
  client_secret : Option String := none
  username : Option String := none
  password : Option String := none

/-- The `WallabagConfigError` message for a missing base URL. -/
def baseUrlMissingMsg : String :=
  "Wallabag base URL is not set. Provide it or set WALLABAG_BASE_URL environment variable."

/-- The `WallabagConfigError` message for missing credentials; it names the
    full parameter set client_id, client_secret, username, password. -/
def missingAuthParamsMsg : String :=
  "Missing required authentication parameters. Please provide client_id, client_secret, username, and password or set corresponding WALLABAG_ environment variables."

/-- The `WallabagAuthError` message when the token response has no usable
    access_token. -/
def noTokenMsg : String :=
  "Authentication successful, but no access token received."

/-- The `WallabagAuthError` message of the pre-request token check in the
    three read operations. -/
def notAuthMsg : String :=
  "Access token is not set. Please authenticate first."

/-- `WallabagClient.authenticate` (lines 108-148): resolves each credential
    from the argument `or` the environment, raises `WallabagConfigError`
    when any resolves to `None`, issues the token request, maps
    JSONDecodeError and `WallabagApiError` to `WallabagAuthError`, stores
    `token_data.get("access_token")` into `self.access_token`, and raises
    `WallabagAuthError` when the stored value is falsy. -/
def authenticate (cfg : ClientCfg) (env : Env)
    (client_id client_secret username password : Option String)
    (w : World) : Except PyExc Bool × World :=
  let url := cfg.base_url ++ "/oauth/v2/token"
  let cid := pyOr client_id env.client_id
  let cs := pyOr client_secret env.client_secret
  let un := pyOr username env.username
  let pw := pyOr password env.password
  if cid.isNone || cs.isNone || un.isNone || pw.isNone then
    (.error (.wallabagConfigError missingAuthParamsMsg), w)
  else
    let data : List (String × String) :=
      [("grant_type", "password"), ("client_id", cid.getD ""),
       ("client_secret", cs.getD ""), ("username", un.getD ""),
       ("password", pw.getD "")]
    match clientRequest cfg ⟨"GET", url, data, []⟩ w with
    | (.error e, w1) =>
        match e with
        | .wallabagApiError m =>
            (.error (.wallabagAuthError ("Authentication failed: " ++ m)), w1)
        | e => (.error e, w1)
    | (.ok resp, w1) =>
        match resp.jsonResult with
        | .error m =>
            (.error (.wallabagAuthError
              ("Failed to parse authentication response: " ++ m)), w1)
        | .ok tokenData =>
            match pyGetOpt tokenData "access_token" with
            | .error pe => (.error pe, w1)
            | .ok tokOpt =>
                let w2 : World := { w1 with access_token := tokOpt }
                if pyFalsyOpt tokOpt then
                  (.error (.wallabagAuthError noTokenMsg), w2)
                else
                  (.ok true, w2)

/-- The `Article` pydantic model (wallabag_client.py lines 54-70).
    `created_at`/`updated_at` are kept as their raw (well-formed) string
    values; the pydantic parsing of the timestamp format is abstracted. -/
structure Article : Type where
  id : Int
  title : String
  url : String
  content : Option String
  created_at : String
  updated_at : String
  reading_time : Option Int := none
  domain_name : Option String := none
  preview_picture : Option String := none
  http_status : Option String := none
  is_archived : Bool := false
  is_starred : Bool := false
deriving DecidableEq

/-- Required `int` field of a pydantic model: absent or ill-typed is a
    validation error. -/
def fieldInt (fs : List (String × JsonVal)) (k : String) :
    Except String Int :=
  match fs.lookup k with
  | some (.num n) => .ok n
  | some _ => .error ("Input should be a valid integer: " ++ k)
  | none => .error ("Field required: " ++ k)

/-- Required `str` field of a pydantic model. -/
def fieldStr (fs : List (String × JsonVal)) (k : String) :
    Except String String :=
  match fs.lookup k with
  | some (.str s) => .ok s
  | some _ => .error ("Input should be a valid string: " ++ k)
  | none => .error ("Field required: " ++ k)

/-- Required `Optional[str]` field with no default (pydantic v2: the key
    must be present, its value may be null). -/
def fieldOptStrRequired (fs : List (String × JsonVal)) (k : String) :
    Except String (Option String) :=
  match fs.lookup k with
  | some (.str s) => .ok (some s)
  | some .null => .ok none
  | some _ => .error ("Input should be a valid string: " ++ k)
  | none => .error ("Field required: " ++ k)

/-- `Optional[str] = None` field: absent or null is `none`. -/
def fieldOptStr (fs : List (String × JsonVal)) (k : String) :
    Except String (Option String) :=
  match fs.lookup k with
  | some (.str s) => .ok (some s)
  | some .null => .ok none
  | some _ => .error ("Input should be a valid string: " ++ k)
  | none => .ok none

/-- `Optional[int] = None` field: absent or null is `none`. -/
def fieldOptInt (fs : List (String × JsonVal)) (k : String) :
    Except String (Option Int) :=
  match fs.lookup k with
  | some (.num n) => .ok (some n)
  | some .null => .ok none
  | some _ => .error ("Input should be a valid integer: " ++ k)
  | none => .ok none

/-- `bool = False` field: absent defaults to `false`. -/
def fieldBoolD (fs : List (String × JsonVal)) (k : String) :
    Except String Bool :=
  match fs.lookup k with
  | some (.bool b) => .ok b
  | some _ => .error ("Input should be a valid boolean: " ++ k)
  | none => .ok false

/-- Validation of an `Article` from the fields of a JSON object, following
    the pydantic v2 semantics of the model declaration: `id`, `title`,
    `url`, `created_at`, `updated_at` and `content` are required (`content`
    because `Optional[str]` without a default is a required nullable field
    in pydantic v2); the remaining fields carry defaults.  Extra keys are
    ignored. -/
def validateArticle (fs : List (String × JsonVal)) :
    Except String Article := do
  let i ← fieldInt fs "id"
  let t ← fieldStr fs "title"
  let u ← fieldStr fs "url"
  let c ← fieldOptStrRequired fs "content"
  let ca ← fieldStr fs "created_at"
  let ua ← fieldStr fs "updated_at"
  let rt ← fieldOptInt fs "reading_time"
  let dn ← fieldOptStr fs "domain_name"
  let pp ← fieldOptStr fs "preview_picture"
  let hs ← fieldOptStr fs "http_status"
  let ia ← fieldBoolD fs "is_archived"
  let st ← fieldBoolD fs "is_starred"
  pure ⟨i, t, u, c, ca, ua, rt, dn, pp, hs, ia, st⟩

/-- `Article(**article)`: raises TypeError when the value is not a mapping
    and ValidationError when validation fails. -/
def articleFromJson (v : JsonVal) : Except PyExc Article :=
  match v with
  | .obj fs =>
      match validateArticle fs with
      | .ok a => .ok a
      | .error m => .error (.validationError m)
  | _ => .error (.typeError "argument after ** must be a mapping")

/-- `[Article(**article) for article in articles_data]`: requires a list. -/
def articlesFromItems (v : JsonVal) : Except PyExc (List Article) :=
  match v with
  | .arr xs => xs.mapM articleFromJson
  | _ => .error (.typeError "articles data is not iterable of mappings")

/-- `GetSingleArticleRequest`. -/
structure GetSingleArticleRequest : Type where
  id : Int

/-- `SearchArticlesRequest`. -/
structure SearchArticlesRequest : Type where
  search_term : String
  count : Option Int := none

/-- `GetArticlesRequest`.  `since` is a datetime, modelled as its
    Unix-epoch seconds for timezone-aware whole-second datetimes (the
    fractional-second part of `datetime.timestamp()` is zero for these);
    `sort_order` is the `Literal` string, default `"desc"`. -/
structure GetArticlesRequest : Type where
  is_archived : Bool := false
  since : Option Int := none
  domain : Option String := none
  count : Option Int := none
  sort_order : String := "desc"
  include_content : Bool := false

/-- CPython `str(dt.timestamp())` for a timezone-aware whole-second
    datetime with epoch seconds `t`: `timestamp()` returns the float
    `t.0`, whose shortest decimal representation is the integer followed
    by `.0` (timestamps are far below the 1e16 threshold where repr
    switches to exponent form). -/
def timestampStr (t : Int) : String :=
  toString t ++ ".0"

/-- The query-parameter dict built by `get_articles` (lines 199-208), in
    dict insertion order; `domain_name` is appended when `req.domain` is
    truthy. -/
def getArticlesParams (req : GetArticlesRequest) : List (String × String) :=
  let base : List (String × String) :=
    [("archive", if req.is_archived then "1" else "0"),
     ("perPage", match req.count with
                 | some n => if n == 0 then "100" else toString n
                 | none => "100"),
     ("since", match req.since with
               | some t => timestampStr t
               | none => "0"),
     ("order", req.sort_order),
     ("detail", if req.include_content then "full" else "metadata")]
  match req.domain with
  | some d => if d == "" then base else base ++ [("domain_name", d)]
  | none => base

/-- The query-parameter dict built by `search_articles` (lines 156-159). -/
def searchArticlesParams (req : SearchArticlesRequest) :
    List (String × String) :=
  [("term", req.search_term),
   ("perPage", match req.count with
               | some n => if n == 0 then "100" else toString n
               | none => "100")]

/-- The Authorization header sent by the read operations. -/
def authHeader (tok : Option JsonVal) : List (String × String) :=
  [("Authorization", "Bearer " ++ pyStr (tok.getD .null))]

/-- Shared tail of `get_articles` and `search_articles` (lines 163-173 and
    212-222): issue the request, map JSONDecodeError to `WallabagApiError`
    and re-raise `WallabagApiError`, then (outside the try) navigate
    `response_data.get("_embedded", dict()).get("items", list())` and
    build the article list. -/
def fetchArticleList (cfg : ClientCfg) (r : Request) (parseErrPrefix : String)
    (w : World) : Except PyExc (List Article) × World :=
  match clientRequest cfg r w with
  | (.error e, w1) => (.error e, w1)
  | (.ok resp, w1) =>
      match resp.jsonResult with
      | .error m => (.error (.wallabagApiError (parseErrPrefix ++ m)), w1)
      | .ok body =>
          match pyGetD body "_embedded" (.obj []) with
          | .error pe => (.error pe, w1)
          | .ok emb =>
              match pyGetD emb "items" (.arr []) with
              | .error pe => (.error pe, w1)
              | .ok items =>
                  match articlesFromItems items with
                  | .error pe => (.error pe, w1)
                  | .ok arts => (.ok arts, w1)

/-- `WallabagClient.search_articles` (lines 150-173). -/
def search_articles (cfg : ClientCfg) (req : SearchArticlesRequest)
    (w : World) : Except PyExc (List Article) × World :=
  if pyFalsyOpt w.access_token then
    (.error (.wallabagAuthError notAuthMsg), w)
  else
    let url := cfg.base_url ++ "/api/search"
    fetchArticleList cfg
      ⟨"GET", url, searchArticlesParams req, authHeader w.access_token⟩
      "Failed to parse articles response: " w

/-- `WallabagClient.get_articles` (lines 193-222). -/
def get_articles (cfg : ClientCfg) (req : GetArticlesRequest)
    (w : World) : Except PyExc (List Article) × World :=
  if pyFalsyOpt w.access_token then
    (.error (.wallabagAuthError notAuthMsg), w)
  else
    let url := cfg.base_url ++ "/api/entries"
    fetchArticleList cfg
      ⟨"GET", url, getArticlesParams req, authHeader w.access_token⟩
      "Failed to parse articles response: " w

/-- `WallabagClient.get_single_article` (lines 175-191). -/
def get_single_article (cfg : ClientCfg) (req : GetSingleArticleRequest)
    (w : World) : Except PyExc Article × World :=
  if pyFalsyOpt w.access_token then
    (.error (.wallabagAuthError notAuthMsg), w)
  else
    let url := cfg.base_url ++ "/api/entries/" ++ toString req.id
    match clientRequest cfg ⟨"GET", url, [], authHeader w.access_token⟩ w with
    | (.error e, w1) => (.error e, w1)
    | (.ok resp, w1) =>
        match resp.jsonResult with
        | .error m =>
            (.error (.wallabagApiError
              ("Failed to parse article response: " ++ m)), w1)
        | .ok body =>
            match articleFromJson body with
            | .error pe => (.error pe, w1)
            | .ok art => (.ok art, w1)

/-- The JSON envelope a tool returns (`json.dumps` kept structured):
    `success` plus, on failure, the stringified exception. -/
structure ToolEnvelope : Type where
  success : Bool
  error : Option String := none
deriving DecidableEq

/-- A lazily-initialized module-level client: its configuration and
    session state. -/
def ClientHandle : Type := ClientCfg × World

/-- `WallabagClient.__init__` called with no arguments (server.py line 20):
    resolves the base URL from `WALLABAG_BASE_URL` and raises
    `WallabagConfigError` when the resolved value is falsy. -/
def wallabagClientInit (env : Env) (net : Request → HttpOutcome) :
    Except PyExc ClientCfg :=
  match pyOr none env.base_url with
  | some b => if b == "" then .error (.wallabagConfigError baseUrlMissingMsg)
              else .ok ⟨b, false, net⟩
  | none => .error (.wallabagConfigError baseUrlMissingMsg)

/-- `initialize_client` (server.py lines 19-22): construct the client,
    authenticate from environment credentials, return the handle.  Any
    exception propagates. -/
def initialize_client (env : Env) (net : Request → HttpOutcome) :
    Except PyExc ClientHandle :=
  match wallabagClientInit env net with
  | .error e => .error e
  | .ok cfg =>
      match authenticate cfg env none none none none ⟨none, [], 0, 0⟩ with
      | (.ok _, w) => .ok (cfg, w)
      | (.error e, _) => .error e

/-- Lazy singleton acquisition shared by the three tools (`if client is
    None: client = await initialize_client()`) - this runs BEFORE the
    `try` block of each tool body. -/
def acquireClient (env : Env) (net : Request → HttpOutcome)
    (gclient : Option ClientHandle) : Except PyExc ClientHandle :=
  match gclient with
  | some cw => .ok cw
  | none => initialize_client env net

/-- The `try ... except Exception` body shared by the three tools: every
    exception from the wrapped operation is converted to a
    success-false envelope carrying `str(e)`. -/
def toolBody {α : Type} (cfg : ClientCfg)
    (run : Except PyExc α × World) : ToolEnvelope × ClientHandle :=
  match run with
  | (.ok _, w1) => (⟨true, none⟩, (cfg, w1))
  | (.error e, w1) => (⟨false, some (excMsg e)⟩, (cfg, w1))

/-- `get_single_wallabag_article` (server.py lines 28-54): lazily acquires
    the client outside the try block, then runs the client call inside
    `try ... except Exception`. -/
def get_single_wallabag_article (env : Env) (net : Request → HttpOutcome)
    (gclient : Option ClientHandle) (id : Int) :
    Except PyExc (ToolEnvelope × ClientHandle) :=
  match acquireClient env net gclient with
  | .error e => .error e
  | .ok (cfg, w) => .ok (toolBody cfg (get_single_article cfg ⟨id⟩ w))

/-- `get_wallabag_articles` (server.py lines 57-113): lazily acquires the
    client outside the try block; inside the try, converts
    `since_days_ago` to a datetime (`datetime.now() - timedelta(days=n)`,
    modelled with the current epoch second `now`) and runs
    `client.get_articles`. -/
def get_wallabag_articles (env : Env) (net : Request → HttpOutcome)
    (gclient : Option ClientHandle) (now : Int)
    (is_archived : Bool) (domain : Option String)
    (since_days_ago : Option Int) (count : Option Int)
    (sort_order : String) (include_content : Bool) :
    Except PyExc (ToolEnvelope × ClientHandle) :=
  match acquireClient env net gclient with
  | .error e => .error e
  | .ok (cfg, w) =>
      let since_date : Option Int :=
        match since_days_ago with
        | some d => some (now - d * 86400)
        | none => none
      let req : GetArticlesRequest :=
        ⟨is_archived, since_date, domain, count, sort_order, include_content⟩
      .ok (toolBody cfg (get_articles cfg req w))

/-- The `search_articles` tool (server.py lines 116-146). -/
def search_articles_tool (env : Env) (net : Request → HttpOutcome)
    (gclient : Option ClientHandle) (search_term : String)
    (count : Option Int) :
    Except PyExc (ToolEnvelope × ClientHandle) :=
  match acquireClient env net gclient with
  | .error e => .error e
  | .ok (cfg, w) => .ok (toolBody cfg (search_articles cfg ⟨search_term, count⟩ w))

/-- Option-to-JSON encoding for nullable string fields. -/
def optJsonStr : Option String → JsonVal
  | some s => .str s
  | none => .null

/-- Option-to-JSON encoding for nullable integer fields. -/
def optJsonInt : Option Int → JsonVal
  | some n => .num n
  | none => .null

/-- A server payload carrying every `Article` field (optional fields
    present, possibly as null). -/
def fullArticlePayload (i : Int) (t u : String) (c : Option String)
    (ca ua : String) (rt : Option Int) (dn pp hs : Option String)
    (ia st : Bool) : List (String × JsonVal) :=
  [("id", .num i), ("title", .str t), ("url", .str u),
   ("content", optJsonStr c), ("created_at", .str ca),
   ("updated_at", .str ua), ("reading_time", optJsonInt rt),
   ("domain_name", optJsonStr dn), ("preview_picture", optJsonStr pp),
   ("http_status", optJsonStr hs), ("is_archived", .bool ia),
   ("is_starred", .bool st)]

/-- A server payload carrying only `id`, `title`, `url`, `content`,
    `created_at`, `updated_at`. -/
def minimalArticlePayload (i : Int) (t u : String) (c : Option String)
    (ca ua : String) : List (String × JsonVal) :=
  [("id", .num i), ("title", .str t), ("url", .str u),
   ("content", optJsonStr c), ("created_at", .str ca),
   ("updated_at", .str ua)]

/-- A network that never answers (transport failure on every request). -/
def stubNet : Request → HttpOutcome := fun _ => .transportError "unreachable"

/-- A network answering every request with status 2xx and JSON body `v`. -/
def okBodyNet (v : JsonVal) : Request → HttpOutcome := fun _ => .ok (.ok v)

/-- A fresh session: no token, no traffic, no closed handles. -/
def emptyWorld : World := ⟨none, [], 0, 0⟩

/-- A session holding a (truthy) string access token. -/
def tokWorld : World := ⟨some (.str "test_access_token"), [], 0, 0⟩

/-- A session holding a previously obtained token. -/
def oldTokWorld : World := ⟨some (.str "old_token"), [], 0, 0⟩

/-- A client over the test base URL with a locally-created transport. -/
def baseCfg (net : Request → HttpOutcome) : ClientCfg :=
  ⟨"http://test-wallabag.com", false, net⟩

/-- A ready client handle over a given network, as the server would hold
    after a successful first-use initialization. -/
def readyHandle (net : Request → HttpOutcome) : ClientHandle :=
  (baseCfg net, tokWorld)

/-- C8: for every request through `_request` - whatever the outcome
    (2xx, non-2xx status, or transport failure, all covered by the
    arbitrary `cfg.net`) - a locally-created transport handle (no
    caller-supplied client) is closed exactly once on exit, a
    caller-supplied handle is never closed by the helper, and the request
    is handed to the transport in every case. -/
theorem claim_C8_transport_release (cfg : ClientCfg) (r : Request) (w : World) :
    (clientRequest cfg r w).2.closedLocal
        = w.closedLocal + (if cfg.hasCallerClient then 0 else 1)
      ∧ (clientRequest cfg r w).2.closedCaller = w.closedCaller
      ∧ (clientRequest cfg r w).2.issued = w.issued ++ [r] := by
  unfold clientRequest
  cases h : cfg.hasCallerClient <;> simp [h]

/-- C5: with no access token stored (`authenticate` never called or never
    succeeded), each of the three read operations fails with
    `WallabagAuthError` and returns the session state unchanged - in
    particular the request trace is unchanged, so no network request was
    issued. -/
theorem claim_C5_reads_require_token (cfg : ClientCfg) (w : World)
    (sreq : SearchArticlesRequest) (areq : GetArticlesRequest)
    (greq : GetSingleArticleRequest) (h : w.access_token = none) :
    search_articles cfg sreq w = (.error (.wallabagAuthError notAuthMsg), w)
      ∧ get_articles cfg areq w = (.error (.wallabagAuthError notAuthMsg), w)
      ∧ get_single_article cfg greq w
          = (.error (.wallabagAuthError notAuthMsg), w) := by
  unfold search_articles get_articles get_single_article
  simp [h, pyFalsyOpt]

/-- Witness for C5 at a concrete unauthenticated session. -/
theorem claim_C5_reads_require_token_witness :
    search_articles (baseCfg stubNet) ⟨"rust", none⟩ emptyWorld
        = (.error (.wallabagAuthError notAuthMsg), emptyWorld)
      ∧ get_articles (baseCfg stubNet) {} emptyWorld
          = (.error (.wallabagAuthError notAuthMsg), emptyWorld)
      ∧ get_single_article (baseCfg stubNet) ⟨59⟩ emptyWorld
          = (.error (.wallabagAuthError notAuthMsg), emptyWorld) :=
  claim_C5_reads_require_token (baseCfg stubNet) emptyWorld ⟨"rust", none⟩ {} ⟨59⟩ rfl

/-- C7: whenever any of the four credential fields resolves to unset both
    by argument and by environment fallback, `authenticate` fails with the
    `WallabagConfigError` naming the missing parameter set, and the session
    is unchanged (no request issued). -/
theorem claim_C7_missing_credentials (cfg : ClientCfg) (env : Env)
    (ci cs un pw : Option String) (w : World)
    (h : pyOr ci env.client_id = none ∨ pyOr cs env.client_secret = none
        ∨ pyOr un env.username = none ∨ pyOr pw env.password = none) :
    authenticate cfg env ci cs un pw w
      = (.error (.wallabagConfigError missingAuthParamsMsg), w) := by
  unfold authenticate
  rcases h with h | h | h | h <;> simp [h]

/-- Witness for C7: no arguments and an empty environment. -/
theorem claim_C7_missing_credentials_witness :
    authenticate (baseCfg stubNet) {} none none none none emptyWorld
      = (.error (.wallabagConfigError missingAuthParamsMsg), emptyWorld) :=
  claim_C7_missing_credentials (baseCfg stubNet) {} none none none none
    emptyWorld (Or.inl rfl)

/-- C6: on a 2xx JSON-object response whose body lacks the
    `_embedded.items` path (no `_embedded` key, or an `_embedded` object
    without an `items` key), both `get_articles` and `search_articles`
    return the empty list rather than an error. -/
theorem claim_C6_missing_embedded_items (base : String) (hasC : Bool)
    (fs : List (String × JsonVal)) (areq : GetArticlesRequest)
    (sreq : SearchArticlesRequest) (w : World)
    (htok : pyFalsyOpt w.access_token = false)
    (hpath : fs.lookup "_embedded" = none
      ∨ ∃ gs, fs.lookup "_embedded" = some (.obj gs)
            ∧ gs.lookup "items" = none) :
    (get_articles ⟨base, hasC, okBodyNet (.obj fs)⟩ areq w).1 = .ok []
      ∧ (search_articles ⟨base, hasC, okBodyNet (.obj fs)⟩ sreq w).1
          = .ok [] := by
  unfold get_articles search_articles fetchArticleList clientRequest okBodyNet
  rcases hpath with h | ⟨gs, h, h2⟩ <;>
    cases hc : hasC <;>
      simp [htok, h, pyGetD, articlesFromItems, List.mapM.loop, pure,
        Except.pure, *]

/-- Witness for C6: an authenticated session and a body with an
    `_embedded` object that has no `items` key. -/
theorem claim_C6_missing_embedded_items_witness :
    (get_articles ⟨"http://test-wallabag.com", false,
        okBodyNet (.obj [("_embedded", .obj [])])⟩ {} tokWorld).1 = .ok []
      ∧ (search_articles ⟨"http://test-wallabag.com", false,
          okBodyNet (.obj [("_embedded", .obj [])])⟩ ⟨"rust", none⟩
            tokWorld).1 = .ok [] :=
  claim_C6_missing_embedded_items "http://test-wallabag.com" false
    [("_embedded", .obj [])] {} ⟨"rust", none⟩ tokWorld rfl
    (Or.inr ⟨[], rfl, rfl⟩)

/-- C10: on a 2xx response whose JSON body is not an object (a top-level
    array, string, number, boolean or null), both `get_articles` and
    `search_articles` raise the raw AttributeError from
    `response_data.get`, not a wrapped `WallabagApiError`. -/
theorem claim_C10_non_object_body (base : String) (hasC : Bool)
    (body : JsonVal) (areq : GetArticlesRequest)
    (sreq : SearchArticlesRequest) (w : World)
    (htok : pyFalsyOpt w.access_token = false)
    (hbody : ∀ fs, body ≠ .obj fs) :
    (get_articles ⟨base, hasC, okBodyNet body⟩ areq w).1
        = .error (.attributeError (attrGetMsg body))
      ∧ (search_articles ⟨base, hasC, okBodyNet body⟩ sreq w).1
          = .error (.attributeError (attrGetMsg body))
      ∧ ∀ m, (get_articles ⟨base, hasC, okBodyNet body⟩ areq w).1
          ≠ .error (.wallabagApiError m) := by
  unfold get_articles search_articles fetchArticleList clientRequest okBodyNet
  cases body <;> cases hc : hasC <;>
    simp [htok, pyGetD, attrGetMsg, pyTypeName] <;>
      exact absurd rfl (hbody _)

/-- Witness for C10: an authenticated session and a top-level array body. -/
theorem claim_C10_non_object_body_witness :
    (get_articles ⟨"http://test-wallabag.com", false,
        okBodyNet (.arr [])⟩ {} tokWorld).1
        = .error (.attributeError (attrGetMsg (.arr [])))
      ∧ (search_articles ⟨"http://test-wallabag.com", false,
          okBodyNet (.arr [])⟩ ⟨"rust", none⟩ tokWorld).1
          = .error (.attributeError (attrGetMsg (.arr [])))
      ∧ ∀ m, (get_articles ⟨"http://test-wallabag.com", false,
          okBodyNet (.arr [])⟩ {} tokWorld).1
          ≠ .error (.wallabagApiError m) :=
  claim_C10_non_object_body "http://test-wallabag.com" false (.arr [])
    {} ⟨"rust", none⟩ tokWorld rfl (fun _ h => JsonVal.noConfusion h)

/-- C2 counterexample: with `since` set to the whole-second timestamp
    1700000000, the outbound `since` parameter is the float rendering
    "1700000000.0" - not the integer numeric string "1700000000" the claim
    requires (`str(datetime.timestamp())` renders a float). -/
theorem claim_C2_since_counterexample :
    (getArticlesParams { since := some 1700000000 }).lookup "since"
        = some "1700000000.0"
      ∧ ("1700000000.0" : String) ≠ "1700000000" :=
  ⟨rfl, by decide⟩

/-- C2 amended: with no `since` timestamp the outbound parameter is "0";
    with a (whole-second, timezone-aware) timestamp it is the Python
    `str()` of the float returned by `timestamp()` - the epoch seconds
    followed by ".0" - rather than a bare integer numeric string. -/
theorem claim_C2_since_param (req : GetArticlesRequest) :
    (getArticlesParams req).lookup "since"
      = some (match req.since with
              | some t => toString t ++ ".0"
              | none => "0") := by
  rcases req with ⟨ia, since, domain, count, so, ic⟩
  unfold getArticlesParams timestampStr
  rcases domain with _ | d
  · rcases since with _ | t <;> rfl
  · cases hd : (d == "") <;> simp only [hd] <;>
      rcases since with _ | t <;> rfl

/-- Helper: the session state after `fetchArticleList` is exactly the state
    after the underlying `_request` (the JSON navigation that follows is
    state-free). -/
theorem fetchArticleList_world (cfg : ClientCfg) (r : Request)
    (p : String) (w : World) :
    (fetchArticleList cfg r p w).2 = (clientRequest cfg r w).2 := by
  unfold fetchArticleList
  split
  · rename_i heq
    rw [heq]
  · rename_i resp w1 heq
    rw [heq]
    cases hjr : resp.jsonResult with
    | error m => rfl
    | ok body =>
      cases hg : pyGetD body "_embedded" (.obj []) with
      | error pe => simp [hjr, hg]
      | ok emb =>
        cases hi : pyGetD emb "items" (.arr []) with
        | error pe => simp [hjr, hg, hi]
        | ok items =>
          cases ha : articlesFromItems items <;> simp [hjr, hg, hi, ha]

/-- Helper: `_request` records exactly the handed-over request. -/
theorem clientRequest_issued (cfg : ClientCfg) (r : Request) (w : World) :
    (clientRequest cfg r w).2.issued = w.issued ++ [r] := by
  unfold clientRequest
  cases hc : cfg.hasCallerClient <;> simp [hc]

/-- C4: for every authenticated `get_articles` call the outbound query
    parameters are exactly: `archive` "1"/"0" from `is_archived`;
    `perPage` the count when provided and truthy, else "100"; `order` the
    sort order verbatim; `detail` "full"/"metadata" from
    `include_content`; `domain_name` present (with the domain) exactly
    when the domain is non-empty; and a default request yields the pairs
    archive=0, perPage=100, order=desc, since=0, detail=metadata (the code
    emits them in dict order archive, perPage, since, order, detail; the
    claimed rendering is a permutation of it).  The request handed to the
    transport carries exactly these parameters. -/
theorem claim_C4_get_articles_params (req : GetArticlesRequest)
    (cfg : ClientCfg) (w : World)
    (htok : pyFalsyOpt w.access_token = false) :
    (getArticlesParams req).lookup "archive"
        = some (if req.is_archived then "1" else "0")
      ∧ (getArticlesParams req).lookup "perPage"
          = some (match req.count with
                  | some n => if n == 0 then "100" else toString n
                  | none => "100")
      ∧ (getArticlesParams req).lookup "order" = some req.sort_order
      ∧ (getArticlesParams req).lookup "detail"
          = some (if req.include_content then "full" else "metadata")
      ∧ (getArticlesParams req).lookup "domain_name"
          = (match req.domain with
             | some d => if d == "" then none else some d
             | none => none)
      ∧ getArticlesParams {}
          = [("archive", "0"), ("perPage", "100"), ("since", "0"),
             ("order", "desc"), ("detail", "metadata")]
      ∧ (getArticlesParams {}).Perm
          [("archive", "0"), ("perPage", "100"), ("order", "desc"),
           ("since", "0"), ("detail", "metadata")]
      ∧ (get_articles cfg req w).2.issued
          = w.issued ++ [⟨"GET", cfg.base_url ++ "/api/entries",
              getArticlesParams req, authHeader w.access_token⟩] := by
  have hissued : (get_articles cfg req w).2.issued
      = w.issued ++ [⟨"GET", cfg.base_url ++ "/api/entries",
          getArticlesParams req, authHeader w.access_token⟩] := by
    unfold get_articles
    rw [htok]
    simp only [Bool.false_eq_true, if_false]
    rw [fetchArticleList_world, clientRequest_issued]
  rcases req with ⟨ia, since, domain, count, so, ic⟩
  refine ⟨?_, ?_, ?_, ?_, ?_, rfl, by decide, hissued⟩ <;>
    rcases domain with _ | d <;>
      first
        | rfl
        | (cases hd : (d == "") <;> simp [getArticlesParams, hd, List.lookup])

/-- Witness for C4 at a concrete request (archived, domain "test.dev",
    count 5, ascending) against an authenticated session. -/
theorem claim_C4_get_articles_params_witness :
    (getArticlesParams
          ⟨true, none, some "test.dev", some 5, "asc", false⟩).lookup "archive"
        = some (if true then "1" else "0")
      ∧ (getArticlesParams
            ⟨true, none, some "test.dev", some 5, "asc", false⟩).lookup "perPage"
          = some (match (some 5 : Option Int) with
                  | some n => if n == 0 then "100" else toString n
                  | none => "100")
      ∧ (getArticlesParams
            ⟨true, none, some "test.dev", some 5, "asc", false⟩).lookup "order"
          = some "asc"
      ∧ (getArticlesParams
            ⟨true, none, some "test.dev", some 5, "asc", false⟩).lookup "detail"
          = some (if false then "full" else "metadata")
      ∧ (getArticlesParams
            ⟨true, none, some "test.dev", some 5, "asc", false⟩).lookup "domain_name"
          = (match (some "test.dev" : Option String) with
             | some d => if d == "" then none else some d
             | none => none)
      ∧ getArticlesParams {}
          = [("archive", "0"), ("perPage", "100"), ("since", "0"),
             ("order", "desc"), ("detail", "metadata")]
      ∧ (getArticlesParams {}).Perm
          [("archive", "0"), ("perPage", "100"), ("order", "desc"),
           ("since", "0"), ("detail", "metadata")]
      ∧ (get_articles (baseCfg stubNet)
            ⟨true, none, some "test.dev", some 5, "asc", false⟩
            tokWorld).2.issued
          = tokWorld.issued ++ [⟨"GET",
              (baseCfg stubNet).base_url ++ "/api/entries",
              getArticlesParams
                ⟨true, none, some "test.dev", some 5, "asc", false⟩,
              authHeader tokWorld.access_token⟩] :=
  claim_C4_get_articles_params
    ⟨true, none, some "test.dev", some 5, "asc", false⟩
    (baseCfg stubNet) tokWorld rfl

/-- C1 counterexample: a payload holding exactly the five claimed-required
    fields (id, title, url, created_at, updated_at) but no `content` key
    fails deserialization - in pydantic v2, `content: Optional[str]`
    without a default is a required (nullable) field. -/
theorem claim_C1_content_required_counterexample :
    validateArticle [("id", .num 1), ("title", .str "Article 1"),
      ("url", .str "http://example.com/1"),
      ("created_at", .str "2023-01-01T10:00:00Z"),
      ("updated_at", .str "2023-01-01T11:00:00Z")]
      = .error "Field required: content" := rfl

/-- C1 amended: deserialization succeeds whenever the six fields id,
    title, url, content (possibly null), created_at, updated_at are
    present; with all optional fields present every field is exposed
    unchanged, and with everything but those six omitted the missing
    booleans default to false and the other optional fields surface as
    absent.  Only the `content` key may not be omitted. -/
theorem claim_C1_article_validation (i : Int) (t u : String)
    (c : Option String) (ca ua : String) (rt : Option Int)
    (dn pp hs : Option String) (ia st : Bool) :
    validateArticle (fullArticlePayload i t u c ca ua rt dn pp hs ia st)
        = .ok ⟨i, t, u, c, ca, ua, rt, dn, pp, hs, ia, st⟩
      ∧ validateArticle (minimalArticlePayload i t u c ca ua)
          = .ok ⟨i, t, u, c, ca, ua, none, none, none, none, false, false⟩ := by
  constructor
  · rcases c with _ | c <;> rcases rt with _ | rt <;> rcases dn with _ | dn <;>
      rcases pp with _ | pp <;> rcases hs with _ | hs <;>
        cases ia <;> cases st <;> rfl
  · rcases c with _ | c <;> rfl

/-- C9 counterexample: after a previous successful authentication (token
    "old_token"), a 2xx body whose access_token is the falsy string ""
    makes `authenticate` raise `WallabagAuthError`, but the stored token is
    the empty string - not None as the claim states. -/
theorem claim_C9_token_overwrite_counterexample :
    (authenticate (baseCfg (okBodyNet (.obj [("access_token", .str "")])))
          {} (some "cid") (some "csecret") (some "user") (some "pw")
          oldTokWorld).1
        = .error (.wallabagAuthError noTokenMsg)
      ∧ (authenticate (baseCfg (okBodyNet (.obj [("access_token", .str "")])))
            {} (some "cid") (some "csecret") (some "user") (some "pw")
            oldTokWorld).2.access_token
          = some (.str "")
      ∧ some (JsonVal.str "") ≠ (none : Option JsonVal) :=
  ⟨rfl, rfl, by simp⟩

/-- C9 amended: whenever a 2xx JSON-object body carries a missing or falsy
    access_token, `authenticate` raises `WallabagAuthError` and overwrites
    `self.access_token` with the retrieved value first - `None` when the
    field is missing, the falsy value itself when it is present - so the
    previously stored token is lost either way (session state is not
    preserved on this error). -/
theorem claim_C9_token_overwrite (base : String) (hasC : Bool)
    (bf : List (String × JsonVal)) (env : Env) (ci cs un pw : String)
    (w : World) (hci : ci ≠ "") (hcs : cs ≠ "") (hun : un ≠ "")
    (hpw : pw ≠ "")
    (hfalsy : pyFalsyOpt (bf.lookup "access_token") = true) :
    (authenticate ⟨base, hasC, okBodyNet (.obj bf)⟩ env
          (some ci) (some cs) (some un) (some pw) w).1
        = .error (.wallabagAuthError noTokenMsg)
      ∧ (authenticate ⟨base, hasC, okBodyNet (.obj bf)⟩ env
            (some ci) (some cs) (some un) (some pw) w).2.access_token
          = bf.lookup "access_token" := by
  unfold authenticate clientRequest okBodyNet pyOr
  cases hc : hasC <;>
    simp [hci, hcs, hun, hpw, pyGetOpt, hfalsy]

/-- Witness for C9 amended: concrete credentials and the falsy-token body. -/
theorem claim_C9_token_overwrite_witness :
    (authenticate ⟨"http://test-wallabag.com", false,
          okBodyNet (.obj [("access_token", .str "")])⟩ {}
          (some "cid") (some "csecret") (some "user") (some "pw")
          oldTokWorld).1
        = .error (.wallabagAuthError noTokenMsg)
      ∧ (authenticate ⟨"http://test-wallabag.com", false,
            okBodyNet (.obj [("access_token", .str "")])⟩ {}
            (some "cid") (some "csecret") (some "user") (some "pw")
            oldTokWorld).2.access_token
          = [("access_token", JsonVal.str "")].lookup "access_token" :=
  claim_C9_token_overwrite "http://test-wallabag.com" false
    [("access_token", .str "")] {} "cid" "csecret" "user" "pw" oldTokWorld
    (by decide) (by decide) (by decide) (by decide) rfl

/-- Helper: the `try ... except Exception` tool body always produces an
    envelope; when the wrapped operation raised, the envelope has
    success false and carries an error string. -/
theorem toolBody_shape {α : Type} (cfg : ClientCfg)
    (run : Except PyExc α × World) :
    (toolBody cfg run).1.success = false →
      (toolBody cfg run).1.error.isSome = true := by
  rcases run with ⟨res, w1⟩
  cases res <;> simp [toolBody]

/-- C3 counterexample: with no module-level client yet and no
    WALLABAG_BASE_URL configured, invoking `get_single_wallabag_article`
    propagates the `WallabagConfigError` raised during lazy client
    construction instead of returning a success-false payload - the lazy
    initialization runs before the try block. -/
theorem claim_C3_lazy_init_counterexample :
    get_single_wallabag_article {} stubNet none 1
      = .error (.wallabagConfigError baseUrlMissingMsg) := rfl

/-- C3 amended: once the singleton client exists, each of the three tool
    adapters catches every exception from its body and returns a
    structured envelope (success-false with an error string on failure) -
    it never raises; but an exception raised while lazily constructing and
    authenticating the singleton client on first use propagates out of the
    tool uncaught. -/
theorem claim_C3_tool_boundary (env : Env) (net : Request → HttpOutcome)
    (cw : ClientHandle) (id now : Int) (ia ic : Bool) (dom : Option String)
    (sda cnt : Option Int) (so term : String) (e : PyExc)
    (hinit : initialize_client env net = .error e) :
    (∃ out, get_single_wallabag_article env net (some cw) id = .ok out
        ∧ (out.1.success = false → out.1.error.isSome = true))
      ∧ (∃ out, get_wallabag_articles env net (some cw) now ia dom sda cnt
            so ic = .ok out
          ∧ (out.1.success = false → out.1.error.isSome = true))
      ∧ (∃ out, search_articles_tool env net (some cw) term cnt = .ok out
          ∧ (out.1.success = false → out.1.error.isSome = true))
      ∧ get_single_wallabag_article env net none id = .error e
      ∧ get_wallabag_articles env net none now ia dom sda cnt so ic
          = .error e
      ∧ search_articles_tool env net none term cnt = .error e := by
  rcases cw with ⟨cfg, w⟩
  refine ⟨⟨_, rfl, toolBody_shape _ _⟩, ⟨_, rfl, toolBody_shape _ _⟩,
    ⟨_, rfl, toolBody_shape _ _⟩, ?_, ?_, ?_⟩ <;>
    simp only [get_single_wallabag_article, get_wallabag_articles,
      search_articles_tool, acquireClient, hinit]

/-- Witness for C3 amended: a ready client handle, and a failing
    initialization from an empty environment. -/
theorem claim_C3_tool_boundary_witness :
    (∃ out, get_single_wallabag_article {} stubNet (some (readyHandle stubNet))
          1 = .ok out
        ∧ (out.1.success = false → out.1.error.isSome = true))
      ∧ (∃ out, get_wallabag_articles {} stubNet (some (readyHandle stubNet))
            1700000000 false none none none "desc" false = .ok out
          ∧ (out.1.success = false → out.1.error.isSome = true))
      ∧ (∃ out, search_articles_tool {} stubNet (some (readyHandle stubNet))
            "rust" none = .ok out
          ∧ (out.1.success = false → out.1.error.isSome = true))
      ∧ get_single_wallabag_article {} stubNet none 1
          = .error (.wallabagConfigError baseUrlMissingMsg)
      ∧ get_wallabag_articles {} stubNet none 1700000000 false none none
          none "desc" false = .error (.wallabagConfigError baseUrlMissingMsg)
      ∧ search_articles_tool {} stubNet none "rust" none
          = .error (.wallabagConfigError baseUrlMissingMsg) :=
  claim_C3_tool_boundary {} stubNet (readyHandle stubNet) 1 1700000000
    false false none none none "desc" "rust"
    (.wallabagConfigError baseUrlMissingMsg) rfl
